import Mathlib

/-!
Verification of the measurement harness in `ns3/scratch/tcp_multi.cc`:
a shallow embedding of its orchestration and measurement logic
(congestion-algorithm resolution, flow-context initialization, the
periodic sampler's metric derivation, output-sink setup, and the
flows-parameter parsing), together with theorems settling the spec's
claims about that logic.

The external simulation engine (ns-3) is abstracted at its interface:
`TypeId::LookupByNameFailSafe` becomes a `lookup : String → Option TypeId`
parameter, opening an output file becomes an `openOk : String → Bool`
parameter, and `NS_FATAL_ERROR` becomes the `Except.error` branch of a
result.  Doubles are modelled as rationals; `uint32_t`/`uint64_t`
counters as `Nat`.
-/

namespace TcpMulti

/-- The `std::getline(ss, x, d)` loop body inside `Split`: consume
characters into the accumulator until the delimiter, emitting a token at
each delimiter and at end of input. -/
def getlineAux (d : Char) : List Char → List Char → List String
  | [], acc => [String.mk acc.reverse]
  | c :: rest, acc =>
    if c = d then String.mk acc.reverse :: getlineAux d rest []
    else getlineAux d rest (c :: acc)

/-- `Split` from `tcp_multi.cc`: split on the delimiter and keep only
non-empty tokens (`while (std::getline(ss, x, d)) if (!x.empty())
out.push_back(x);`).  The C++ loop filters empty tokens as it goes;
here the same filter is applied to the token list, which yields the
same result. -/
def Split (s : String) (d : Char) : List String :=
  (getlineAux d s.data []).filter (· ≠ "")

/-- `FlowCtx` from `tcp_multi.cc` with its C++ default member initializers
(`mssBytes = 1500.0`, `lastCwndBytes = 1500.0`, `inflightBytes = 0.0`;
`algo` default-constructs to the empty string).  The `std::ofstream csv`
member is the output sink, modelled separately by `setupSinks`. -/
structure FlowCtx where
  algo : String := ""
  mssBytes : ℚ := 1500
  lastCwndBytes : ℚ := 1500
  inflightBytes : ℚ := 0
deriving DecidableEq

/-- The per-flow setup in `main` (lines 202-204): `ctx[i].algo = ...;
ctx[i].mssBytes = static_cast<double>(mss);` applied to a
default-constructed `FlowCtx`.  The other fields keep their defaults. -/
def initFlowCtx (mss : Nat) (algoName : String) : FlowCtx :=
  { algo := algoName, mssBytes := (mss : ℚ) }

/-- `CwndTrace`: the congestion-window hook observer; overwrites
`lastCwndBytes` with the new value. -/
def CwndTrace (c : FlowCtx) (newCwnd : Nat) : FlowCtx :=
  { c with lastCwndBytes := (newCwnd : ℚ) }

/-- `InflightTrace`: the in-flight hook observer; overwrites
`inflightBytes` with the new value. -/
def InflightTrace (c : FlowCtx) (newVal : Nat) : FlowCtx :=
  { c with inflightBytes := (newVal : ℚ) }

/-- The `algo → ns3Name` mapping at the top of `ResolveTcpTypeId`. -/
def ns3NameOf (algo : String) : String :=
  if algo = "Reno" then "ns3::TcpNewReno"
  else if algo = "Cubic" then "ns3::TcpCubic"
  else if algo = "BBR" then "ns3::TcpBbr"
  else "ns3::TcpNewReno"

/-- The `NS_LOG_WARN` message emitted when a requested (recognized,
non-default) implementation is unavailable. -/
def warnMsg (ns3Name : String) : String :=
  ns3Name ++ " not available; falling back to ns3::TcpNewReno."

/-- The `NS_FATAL_ERROR` message emitted when neither the requested
implementation nor the fallback can be resolved. -/
def fatalMsg (ns3Name : String) : String :=
  "Could not resolve TCP TypeId for " ++ ns3Name ++ " or fallback TcpNewReno"

/-- `ResolveTcpTypeId` from `tcp_multi.cc`.  The engine's
`TypeId::LookupByNameFailSafe` is the `lookup` parameter; the result is
the resolved handle (or the fatal-error message, modelling
`NS_FATAL_ERROR`) paired with the list of warning diagnostics emitted
(modelling `NS_LOG_WARN`). -/
def ResolveTcpTypeId {TypeId : Type} (lookup : String → Option TypeId)
    (algo : String) : Except String TypeId × List String :=
  let ns3Name := ns3NameOf algo
  match lookup ns3Name with
  | some tid => (Except.ok tid, [])
  | none =>
    if ns3Name ≠ "ns3::TcpNewReno" then
      match lookup "ns3::TcpNewReno" with
      | some tid => (Except.ok tid, [warnMsg ns3Name])
      | none => (Except.error (fatalMsg ns3Name), [warnMsg ns3Name])
    else (Except.error (fatalMsg ns3Name), [])

/-- The algorithm-name assignment for flow `i` in `main` (line 203):
`ctx[i].algo = (i < algos.size()) ? algos[i] : algos.back();`.
`algos.back()` on an empty vector is undefined behaviour in C++; the
embedding returns `none` there (`List.getLast?` of `[]`), marking the
absence of any defined result. -/
def flowAlgo (algos : List String) (i : Nat) : Option String :=
  if h : i < algos.length then some (algos.get ⟨i, h⟩) else algos.getLast?

/-- One CSV data row as written by `DoSample` (line 64-69): simulated
time, congestion window in packets, throughput in Mbps, aggregate router
queue occupancy in packets, in-flight size in packets. -/
structure Row where
  time : ℚ
  cwnd_pkts : ℚ
  throughput_mbps : ℚ
  buffer_pkts : Nat
  inflight_pkts : ℚ
deriving DecidableEq

/-- The `routerPkts` accumulation at the top of `DoSample`:
`for (const auto& qd : gQdiscs) if (qd) routerPkts += qd->GetNPackets();`.
A `none` entry is a null `Ptr<QueueDisc>` and is skipped. -/
def routerPackets (qdiscs : List (Option Nat)) : Nat :=
  qdiscs.foldl (fun acc qd => match qd with | some k => acc + k | none => acc) 0

/-- `delta` in `DoSample` (line 58):
`uint64_t delta = (cur >= prev) ? (cur - prev) : 0;`. -/
def sampleDelta (cur prev : Nat) : Nat :=
  if prev ≤ cur then cur - prev else 0

/-- `thrMbps` in `DoSample` (line 59):
`double thrMbps = (delta * 8.0) / (sampleDt * 1e6);`. -/
def thrMbpsOf (delta : Nat) (sampleDt : ℚ) : ℚ :=
  ((delta : ℚ) * 8) / (sampleDt * 1000000)

/-- The per-flow body of `DoSample`'s loop (lines 55-69): the row written
for one flow at simulated time `now`, given the aggregate `routerPkts`,
the flow's context, and its `cur`/`prev` receive-byte counters.
Packet-unit conversions divide by `std::max(1.0, mssBytes)`. -/
def sampleRow (routerPkts : Nat) (now sampleDt : ℚ) (c : FlowCtx)
    (cur prev : Nat) : Row :=
  { time := now
  , cwnd_pkts := c.lastCwndBytes / max 1 c.mssBytes
  , throughput_mbps := thrMbpsOf (sampleDelta cur prev) sampleDt
  , buffer_pkts := routerPkts
  , inflight_pkts := c.inflightBytes / max 1 c.mssBytes }

/-- The rows appended by one firing of `DoSample`, one per flow in order:
the receive counters `gRxBytes`/`gRxBytesPrev` are the maps `rx`/`rxPrev`
(a `std::map` `operator[]` read defaults to 0, so total functions model
them), and every row shares the single `routerPackets qdiscs` aggregate. -/
def DoSampleRows (qdiscs : List (Option Nat)) (ctxs : List FlowCtx)
    (rx rxPrev : Nat → Nat) (now sampleDt : ℚ) : List Row :=
  ctxs.enum.map (fun p =>
    sampleRow (routerPackets qdiscs) now sampleDt p.2 (rx p.1) (rxPrev p.1))

/-- The net effect of `DoSample` on `gRxBytesPrev`: inside the loop each
flow `i < n` executes `gRxBytesPrev[i] = cur` with `cur = gRxBytes[i]`and
other keys are untouched. -/
def DoSamplePrev (n : Nat) (rx rxPrev : Nat → Nat) : Nat → Nat :=
  fun j => if j < n then rx j else rxPrev j

/-- Modelled from the spec: the engine's discrete-event scheduler at its
interface boundary (spec section 5: the run terminates by a global
stop-time that prevents further event execution; an event scheduled at or
past the stop time never executes).  `samplerTimes dt stop fuel t` is the
list of simulated times at which the `DoSample` chain starting at `t`
fires: each firing at `t < stop` executes and re-schedules itself at
`t + dt` (line 72); the first firing at or past `stop` never executes.
`fuel` bounds the unrolling; the properties proved hold for every fuel. -/
def samplerTimes (dt stop : ℚ) : Nat → ℚ → List ℚ
  | 0, _ => []
  | fuel + 1, t => if t < stop then t :: samplerTimes dt stop fuel (t + dt) else []

/-- The sampler chain as `main` starts it (line 222):
`Simulator::Schedule(Seconds(sampleDt), &DoSample, ...)` at time 0, so
the first firing is at `t = sampleDt`; `Simulator::Stop(Seconds(duration))`
is the stop time. -/
def runSamplerTimes (sampleDt duration : ℚ) (fuel : Nat) : List ℚ :=
  samplerTimes sampleDt duration fuel sampleDt

/-- The fixed CSV header row written once per sink (line 217). -/
def header : String :=
  "time,cwnd_pkts,throughput_mbps,buffer_pkts,inflight_pkts"

/-- The per-flow output file name (line 212):
`fn << "trace_flow" << i << ".csv"`. -/
def sinkFileName (i : Nat) : String :=
  "trace_flow" ++ toString i ++ ".csv"

/-- The sink-opening part of the setup loop in `main` (lines 212-217),
processing flows `0, 1, ..., n-1` in order.  `openOk` models whether
`std::ofstream::open` succeeds for a given file name; on failure the
process aborts via `NS_FATAL_ERROR` (the `Except.error` branch).  On
success each flow yields its index, its file name, and the list of rows
written during setup — exactly the header row. -/
def setupSinks (openOk : String → Bool) : Nat → Except String (List (Nat × String × List String))
  | 0 => Except.ok []
  | n + 1 =>
    match setupSinks openOk n with
    | Except.error e => Except.error e
    | Except.ok xs =>
      if openOk (sinkFileName n) then
        Except.ok (xs ++ [(n, sinkFileName n, [header])])
      else
        Except.error ("Failed to open CSV for flow " ++ toString n)

/-! ### Helper lemmas -/

/-- A name outside the recognized set falls through every branch of the
name mapping and lands on the default `ns3::TcpNewReno`. -/
theorem ns3NameOf_unrecognized (algo : String)
    (h : algo ∉ (["Reno", "Cubic", "BBR"] : List String)) :
    ns3NameOf algo = "ns3::TcpNewReno" := by
  simp only [List.mem_cons, List.not_mem_nil, or_false, not_or] at h
  obtain ⟨h1, h2, h3⟩ := h
  simp [ns3NameOf, h1, h2, h3]

/-! ### Claims -/

/-- Claim C1, counterexample: with `mss = 536` the per-flow setup leaves
`lastCwndBytes` at the hard-coded default `1500.0`, which is not the
flow's configured `mssBytes`; so the cwnd value sampled before the first
hook event is NOT one MSS whenever `mss ≠ 1500`. -/
theorem C1_counterexample :
    (initFlowCtx 536 "Reno").mssBytes = 536 ∧
    (initFlowCtx 536 "Reno").lastCwndBytes = 1500 ∧
    (initFlowCtx 536 "Reno").lastCwndBytes ≠ (initFlowCtx 536 "Reno").mssBytes :=
  ⟨rfl, rfl, by decide⟩

/-- Claim C1, amended: before any congestion-window hook observation has
fired, a flow's `lastCwndBytes` equals the constant `1500.0` (the default
member initializer), independent of the configured MSS; it equals one MSS
exactly when the MSS parameter is 1500. -/
theorem C1_init_cwnd (mss : Nat) (algoName : String) :
    (initFlowCtx mss algoName).lastCwndBytes = 1500 ∧
    ((mss : ℚ) = 1500 →
      (initFlowCtx mss algoName).lastCwndBytes = (initFlowCtx mss algoName).mssBytes) :=
  ⟨rfl, fun h => by simp [initFlowCtx, h]⟩

/-- Claim C1, witness: at `mss = 1500` the initial `lastCwndBytes` is one
MSS. -/
theorem C1_init_cwnd_witness :
    (initFlowCtx 1500 "Reno").lastCwndBytes = (initFlowCtx 1500 "Reno").mssBytes :=
  (C1_init_cwnd 1500 "Reno").2 (by norm_num)

/-- Claim C2, counterexample: resolving the unrecognized name `"Foo"`
(with every engine lookup succeeding) returns the default handle and
emits NO warning diagnostic — the warning fires only when a recognized
non-default implementation fails engine lookup, never on the
unrecognized-name fallback path. -/
theorem C2_counterexample :
    ("Foo" : String) ∉ (["Reno", "Cubic", "BBR"] : List String) ∧
    ResolveTcpTypeId (fun _ => (some 0 : Option Nat)) "Foo" = (Except.ok 0, []) :=
  ⟨by decide, rfl⟩

/-- Claim C2, amended: resolving any unrecognized name maps to the
default (`ns3::TcpNewReno`) handle without failing and without emitting
any diagnostic when the default lookup succeeds; if the default
implementation itself cannot be resolved by the engine, resolution
aborts (fatal error) with a descriptive message rather than returning. -/
theorem C2_fallback_policy {TypeId : Type} (lookup : String → Option TypeId)
    (algo : String) (h : algo ∉ (["Reno", "Cubic", "BBR"] : List String)) :
    (∀ tid, lookup "ns3::TcpNewReno" = some tid →
      ResolveTcpTypeId lookup algo = (Except.ok tid, [])) ∧
    (lookup "ns3::TcpNewReno" = none →
      ResolveTcpTypeId lookup algo
        = (Except.error (fatalMsg "ns3::TcpNewReno"), [])) := by
  have hn := ns3NameOf_unrecognized algo h
  constructor
  · intro tid htid
    simp [ResolveTcpTypeId, hn, htid]
  · intro hnone
    simp [ResolveTcpTypeId, hn, hnone]

/-- Claim C2, witness: `"Foo"` resolves to the default handle when the
default lookup succeeds, and aborts with the descriptive fatal message
when it does not. -/
theorem C2_fallback_policy_witness :
    ResolveTcpTypeId (fun _ => (some 0 : Option Nat)) "Foo" = (Except.ok 0, []) ∧
    ResolveTcpTypeId (fun _ => (none : Option Nat)) "Foo"
      = (Except.error (fatalMsg "ns3::TcpNewReno"), []) :=
  ⟨(C2_fallback_policy (fun _ => some 0) "Foo" (by decide)).1 0 rfl,
   (C2_fallback_policy (fun _ => none) "Foo" (by decide)).2 rfl⟩

/-- Claim C3: on every sampler firing, each flow's `delta` is
`cur - prev` clamped at 0, `previous` is overwritten with `current`, and
`throughput_mbps = delta * 8 / (Δt * 1e6)`; hence every emitted
throughput is nonnegative, is 0 whenever the tick's delta is 0, and a
counter decrease yields delta 0 instead of underflowing. -/
theorem C3_throughput (qdiscs : List (Option Nat)) (ctxs : List FlowCtx)
    (c : FlowCtx) (routerPkts cur prev : Nat) (rx rxPrev : Nat → Nat)
    (now sampleDt : ℚ) (hdt : 0 < sampleDt) :
    (sampleRow routerPkts now sampleDt c cur prev).throughput_mbps
      = thrMbpsOf (sampleDelta cur prev) sampleDt ∧
    (∀ r ∈ DoSampleRows qdiscs ctxs rx rxPrev now sampleDt,
      0 ≤ r.throughput_mbps) ∧
    (sampleDelta cur prev = 0 →
      (sampleRow routerPkts now sampleDt c cur prev).throughput_mbps = 0) ∧
    (cur < prev → sampleDelta cur prev = 0) ∧
    (∀ n i, i < n → DoSamplePrev n rx rxPrev i = rx i) := by
  have hnn : ∀ d : Nat, 0 ≤ thrMbpsOf d sampleDt := by
    intro d
    unfold thrMbpsOf
    positivity
  refine ⟨rfl, ?_, ?_, ?_, ?_⟩
  · intro r hr
    obtain ⟨p, _, rfl⟩ := List.mem_map.mp hr
    exact hnn _
  · intro h
    simp [sampleRow, thrMbpsOf, h]
  · intro hlt
    simp [sampleDelta, Nat.not_le.mpr hlt]
  · intro n i hi
    simp [DoSamplePrev, hi]

/-- Claim C3, witness: with `cur = 0 < prev = 5` and `Δt = 1/10`, the
delta clamps to 0 and the emitted throughput is 0 (hence nonnegative). -/
theorem C3_throughput_witness :
    sampleDelta 0 5 = 0 ∧
    (sampleRow 0 0 (1/10) {} 0 5).throughput_mbps = 0 := by
  have h := C3_throughput [] [] {} 0 0 5 (fun _ => 0) (fun _ => 0) 0 (1/10) (by norm_num)
  exact ⟨h.2.2.2.1 (by decide), h.2.2.1 (h.2.2.2.1 (by decide))⟩

/-- Claim C4: resolving any name outside `{Reno, Cubic, BBR}` gives the
same result (handle and diagnostics) as resolving `"Reno"` explicitly,
for every engine lookup; and resolution of a fixed name is deterministic. -/
theorem C4_fallback_law {TypeId : Type} (lookup : String → Option TypeId)
    (algo : String) (h : algo ∉ (["Reno", "Cubic", "BBR"] : List String)) :
    ResolveTcpTypeId lookup algo = ResolveTcpTypeId lookup "Reno" ∧
    ∀ a : String, ResolveTcpTypeId lookup a = ResolveTcpTypeId lookup a := by
  refine ⟨?_, fun a => rfl⟩
  have hn := ns3NameOf_unrecognized algo h
  have hr : ns3NameOf "Reno" = "ns3::TcpNewReno" := rfl
  simp only [ResolveTcpTypeId, hn, hr]

/-- Claim C4, witness: `"Vegas"` (unrecognized) resolves identically to
`"Reno"` under a concrete lookup. -/
theorem C4_fallback_law_witness :
    ResolveTcpTypeId (fun _ => (some 3 : Option Nat)) "Vegas"
      = ResolveTcpTypeId (fun _ => (some 3 : Option Nat)) "Reno" :=
  (C4_fallback_law (fun _ => some 3) "Vegas" (by decide)).1

/-- Claim C5: the `buffer_pkts` value of every row emitted by a sampler
firing is the single aggregate `routerPackets` scalar — the sum of the
packet counts of all (live) per-flow bottleneck queues — so every flow's
row for a tick carries the same aggregate value, not a per-flow
occupancy. -/
theorem C5_buffer_aggregate (qdiscs : List (Option Nat)) (ctxs : List FlowCtx)
    (rx rxPrev : Nat → Nat) (now sampleDt : ℚ) :
    routerPackets qdiscs = (qdiscs.filterMap id).sum ∧
    (∀ r ∈ DoSampleRows qdiscs ctxs rx rxPrev now sampleDt,
      r.buffer_pkts = routerPackets qdiscs) ∧
    (∀ r ∈ DoSampleRows qdiscs ctxs rx rxPrev now sampleDt,
      ∀ r' ∈ DoSampleRows qdiscs ctxs rx rxPrev now sampleDt,
        r.buffer_pkts = r'.buffer_pkts) := by
  have hsum : ∀ (l : List (Option Nat)) (acc : Nat),
      l.foldl (fun a qd => match qd with | some k => a + k | none => a) acc
        = acc + (l.filterMap id).sum := by
    intro l
    induction l with
    | nil => intro acc; simp
    | cons hd tl ih =>
      intro acc
      cases hd with
      | none => simp [List.filterMap_cons, ih]
      | some k => simp [List.filterMap_cons, ih, Nat.add_assoc]
  have hbuf : ∀ r ∈ DoSampleRows qdiscs ctxs rx rxPrev now sampleDt,
      r.buffer_pkts = routerPackets qdiscs := by
    intro r hr
    obtain ⟨p, _, rfl⟩ := List.mem_map.mp hr
    rfl
  refine ⟨by simpa using hsum qdiscs 0, hbuf, ?_⟩
  intro r hr r' hr'
  rw [hbuf r hr, hbuf r' hr']

/-- Claim C5, witness: with queues holding 2, (null), 3 packets the
aggregate is 5 and the single flow's row carries it. -/
theorem C5_buffer_aggregate_witness :
    routerPackets [some 2, none, some 3] = ([some 2, none, some 3].filterMap id).sum ∧
    (sampleRow (routerPackets [some 2, none, some 3]) 0 1 {} 0 0).buffer_pkts
      = routerPackets [some 2, none, some 3] := by
  have h := C5_buffer_aggregate [some 2, none, some 3] [{}] (fun _ => 0) (fun _ => 0) 0 1
  exact ⟨h.1, h.2.1 _ (by simp [DoSampleRows, List.enum])⟩

/-- Every executed firing time of a sampler chain started at `t` lies in
`[t, stop)`, and the executed times are strictly increasing, for every
fuel bound. -/
theorem samplerTimes_props (dt stop : ℚ) (hdt : 0 < dt) :
    ∀ (fuel : Nat) (t : ℚ),
      (∀ x ∈ samplerTimes dt stop fuel t, t ≤ x ∧ x < stop) ∧
      (samplerTimes dt stop fuel t).Chain' (· < ·) := by
  intro fuel
  induction fuel with
  | zero => intro t; simp [samplerTimes]
  | succ n ih =>
    intro t
    by_cases h : t < stop
    · simp only [samplerTimes, if_pos h]
      obtain ⟨ih1, ih2⟩ := ih (t + dt)
      constructor
      · intro x hx
        rcases List.mem_cons.mp hx with rfl | hx
        · exact ⟨le_refl _, h⟩
        · have hx' := ih1 x hx
          exact ⟨le_trans (by linarith) hx'.1, hx'.2⟩
      · refine List.Chain'.cons' ih2 ?_
        intro y hy
        have hmem : y ∈ samplerTimes dt stop n (t + dt) := List.mem_of_mem_head? hy
        have := (ih1 y hmem).1
        linarith
    · simp [samplerTimes, if_neg h]

/-- Claim C6: the sampler chain started by `main` first fires at
`t = Δt`, self-reschedules with fixed period `Δt`, and no firing at or
past the stop time executes; hence the row times written to each flow's
sink (each row's `time` field is the firing time) are strictly
increasing and all lie in `[Δt, duration)`. -/
theorem C6_sampler_schedule (sampleDt duration : ℚ) (fuel : Nat)
    (hdt : 0 < sampleDt) :
    (runSamplerTimes sampleDt duration fuel).Chain' (· < ·) ∧
    (∀ t ∈ runSamplerTimes sampleDt duration fuel,
      sampleDt ≤ t ∧ t < duration) ∧
    (0 < fuel → sampleDt < duration →
      (runSamplerTimes sampleDt duration fuel).head? = some sampleDt) ∧
    (∀ (routerPkts cur prev : Nat) (c : FlowCtx) (t : ℚ),
      (sampleRow routerPkts t sampleDt c cur prev).time = t) := by
  obtain ⟨h1, h2⟩ := samplerTimes_props sampleDt duration hdt fuel sampleDt
  refine ⟨h2, h1, ?_, fun _ _ _ _ _ => rfl⟩
  intro hfuel hlt
  cases fuel with
  | zero => omega
  | succ n => simp [runSamplerTimes, samplerTimes, if_pos hlt]

/-- Claim C6, witness: with `Δt = 1/2` and stop time `5/4` the chain
fires at times `[1/2, 1]` — first firing at `Δt`, strictly increasing,
none at or past the stop time. -/
theorem C6_sampler_schedule_witness :
    runSamplerTimes (1/2) (5/4) 3 = [1/2, 1] ∧
    ((1/2 : ℚ) ≤ 1 ∧ (1 : ℚ) < 5/4) ∧
    (runSamplerTimes (1/2) (5/4) 3).head? = some (1/2) := by
  have h := C6_sampler_schedule (1/2) (5/4) 3 (by norm_num)
  refine ⟨by norm_num [runSamplerTimes, samplerTimes], h.2.1 1 ?_,
    h.2.2.1 (by norm_num) (by norm_num)⟩
  norm_num [runSamplerTimes, samplerTimes]

/-- Claim C7: the setup loop opens exactly one output sink per flow,
keyed by the flow's index with file name `trace_flow<i>.csv`; when every
open succeeds, each sink's written rows are exactly the fixed header row
(written once, first); if any open fails, setup aborts fatally. -/
theorem C7_sink_setup (openOk : String → Bool) (n : Nat) :
    (∀ out, setupSinks openOk n = Except.ok out →
      out = (List.range n).map (fun i => (i, sinkFileName i, [header]))) ∧
    ((∃ i, i < n ∧ openOk (sinkFileName i) = false) →
      ∃ e, setupSinks openOk n = Except.error e) := by
  induction n with
  | zero =>
    constructor
    · intro out hout
      simp only [setupSinks] at hout
      cases hout
      simp
    · rintro ⟨i, hi, -⟩
      omega
  | succ n ih =>
    constructor
    · intro out hout
      rcases hsn : setupSinks openOk n with e | xs
      · rw [setupSinks, hsn] at hout
        cases hout
      · rw [setupSinks, hsn] at hout
        rcases hop : openOk (sinkFileName n) with - | -
        · rw [hop] at hout
          simp at hout
        · rw [hop] at hout
          simp only [if_true] at hout
          cases hout
          rw [ih.1 xs hsn, List.range_succ, List.map_append]
          rfl
    · rintro ⟨i, hi, hfail⟩
      rcases Nat.lt_succ_iff_lt_or_eq.mp hi with hi' | rfl
      · obtain ⟨e, he⟩ := ih.2 ⟨i, hi', hfail⟩
        exact ⟨e, by rw [setupSinks, he]⟩
      · rcases hsn : setupSinks openOk i with e | xs
        · exact ⟨e, by rw [setupSinks, hsn]⟩
        · exact ⟨_, by rw [setupSinks, hsn, hfail]; rfl⟩

/-- Claim C7, witness: with two flows and every open succeeding, setup
yields sinks keyed 0 and 1 whose contents are exactly the header row;
with every open failing, setup aborts with an error. -/
theorem C7_sink_setup_witness :
    setupSinks (fun _ => true) 2
      = Except.ok [(0, sinkFileName 0, [header]), (1, sinkFileName 1, [header])] ∧
    [(0, sinkFileName 0, [header]), (1, sinkFileName 1, [header])]
      = (List.range 2).map (fun i => (i, sinkFileName i, [header])) ∧
    (∃ e, setupSinks (fun _ => false) 2 = Except.error e) := by
  refine ⟨rfl, (C7_sink_setup (fun _ => true) 2).1 _ rfl, ?_⟩
  exact (C7_sink_setup (fun _ => false) 2).2 ⟨0, by norm_num, rfl⟩

/-- Claim C8: the packet-unit conversions in `DoSample` divide by
`max(1.0, mssBytes)`, a divisor that is always at least 1 (hence never
zero, even when the MSS parameter is 0), so the conversion is total:
multiplying the converted value back by the divisor recovers the byte
value. -/
theorem C8_divisor_safe (c : FlowCtx) (routerPkts cur prev : Nat)
    (now sampleDt : ℚ) :
    1 ≤ max 1 c.mssBytes ∧
    max 1 c.mssBytes ≠ 0 ∧
    (sampleRow routerPkts now sampleDt c cur prev).cwnd_pkts * max 1 c.mssBytes
      = c.lastCwndBytes ∧
    (sampleRow routerPkts now sampleDt c cur prev).inflight_pkts * max 1 c.mssBytes
      = c.inflightBytes := by
  have h1 : (1 : ℚ) ≤ max 1 c.mssBytes := le_max_left _ _
  have h0 : max 1 c.mssBytes ≠ 0 := by positivity
  exact ⟨h1, h0, div_mul_cancel₀ _ h0, div_mul_cancel₀ _ h0⟩

/-- Claim C9: `Split` discards empty tokens and the flow count is
`n = max(#tokens, 1)`; with at least one non-empty token every flow
index's algorithm lookup is in bounds, but with none (empty string or
only commas) one flow is still created and its assignment reads
`algos.back()` of an empty vector — no defined result (`none` here). -/
theorem C9_flows_parsing (s : String) :
    (∀ t ∈ Split s ',', t ≠ "") ∧
    (Split s ',' ≠ [] →
      ∀ i < max (Split s ',').length 1,
        ∃ h : i < (Split s ',').length,
          flowAlgo (Split s ',') i = some ((Split s ',').get ⟨i, h⟩)) ∧
    (Split s ',' = [] →
      max (Split s ',').length 1 = 1 ∧ flowAlgo (Split s ',') 0 = none) := by
  refine ⟨?_, ?_, ?_⟩
  · intro t ht
    simpa using (List.mem_filter.mp ht).2
  · intro hne i hi
    have hpos : 0 < (Split s ',').length := List.length_pos.mpr hne
    have hmax : max (Split s ',').length 1 = (Split s ',').length :=
      Nat.max_eq_left hpos
    rw [hmax] at hi
    exact ⟨hi, by simp [flowAlgo, hi]⟩
  · intro hempty
    rw [hempty]
    exact ⟨rfl, rfl⟩

/-- Claim C9, witness: `","` parses to no tokens, forcing one flow whose
assignment has no defined result; `"Reno,Cubic"` parses to two tokens
with in-bounds assignments. -/
theorem C9_flows_parsing_witness :
    (max (Split "," ',').length 1 = 1 ∧ flowAlgo (Split "," ',') 0 = none) ∧
    flowAlgo (Split "Reno,Cubic" ',') 1 = some "Cubic" := by
  constructor
  · exact (C9_flows_parsing ",").2.2 rfl
  · obtain ⟨h, heq⟩ :=
      (C9_flows_parsing "Reno,Cubic").2.1 (by decide) 1 (by decide)
    rw [heq]
    rfl

/-- Claim C10: a recognized non-default name (`Cubic`/`BBR`) whose
engine lookup fails does not abort — a warning is logged and the default
is retried, returning its handle on success and aborting only when the
default lookup also fails; for the default path (`Reno` or any
unrecognized name) no warning-and-retry step exists and a failed lookup
aborts directly, with no diagnostic logged. -/
theorem C10_warn_retry {TypeId : Type} (lookup : String → Option TypeId) :
    (∀ algo ∈ (["Cubic", "BBR"] : List String),
      lookup (ns3NameOf algo) = none →
        (∀ tid, lookup "ns3::TcpNewReno" = some tid →
          ResolveTcpTypeId lookup algo
            = (Except.ok tid, [warnMsg (ns3NameOf algo)])) ∧
        (lookup "ns3::TcpNewReno" = none →
          ResolveTcpTypeId lookup algo
            = (Except.error (fatalMsg (ns3NameOf algo)), [warnMsg (ns3NameOf algo)]))) ∧
    (∀ algo, ns3NameOf algo = "ns3::TcpNewReno" →
      lookup "ns3::TcpNewReno" = none →
        ResolveTcpTypeId lookup algo
          = (Except.error (fatalMsg "ns3::TcpNewReno"), [])) := by
  constructor
  · intro algo halgo hfail
    have hname : ns3NameOf algo ≠ "ns3::TcpNewReno" := by
      simp only [List.mem_cons, List.not_mem_nil, or_false] at halgo
      rcases halgo with rfl | rfl <;> decide
    constructor
    · intro tid htid
      simp [ResolveTcpTypeId, hfail, hname, htid]
    · intro hnone
      simp [ResolveTcpTypeId, hfail, hname, hnone]
  · intro algo hname hnone
    simp [ResolveTcpTypeId, hname, hnone]

/-- Claim C10, witness: `"Cubic"` with an unavailable Cubic
implementation falls back (with a warning) to the default handle, while
`"Reno"` with an unresolvable default aborts directly with no warning. -/
theorem C10_warn_retry_witness :
    ResolveTcpTypeId
        (fun s => if s = "ns3::TcpNewReno" then (some 7 : Option Nat) else none)
        "Cubic"
      = (Except.ok 7, [warnMsg (ns3NameOf "Cubic")]) ∧
    ResolveTcpTypeId (fun _ => (none : Option Nat)) "Reno"
      = (Except.error (fatalMsg "ns3::TcpNewReno"), []) := by
  constructor
  · exact ((C10_warn_retry _).1 "Cubic" (by decide) (by decide)).1 7 (by decide)
  · exact (C10_warn_retry _).2 "Reno" rfl rfl

end TcpMulti
